import Mathlib

/-!
Verification of the schema-to-Rust type resolution core of the generator:
the sources embedded here are src/generator/lib/types.py (type resolver,
identifier mangling, sample-value generation) and the parts of
src/generator/lib/filters.py that the resolver uses (camel_to_under).

Python strings are modelled as Lean `String` (a list of characters); the
ASCII-range behaviour of `str.upper`/`str.lower` and of the character
classes [A-Z], [a-z], [0-9] used by the regexes is embedded explicitly.
The file lists all definitions first and all theorems afterwards.
-/

/-! ### Character helpers (ASCII ranges used by the regexes in filters.py) -/

/-- The regex character class [A-Z]: codepoints 65..90. -/
def isUpperAZ (c : Char) : Bool := decide (65 ≤ c.toNat ∧ c.toNat ≤ 90)

/-- The regex character class [a-z]: codepoints 97..122. -/
def isLowerAZ (c : Char) : Bool := decide (97 ≤ c.toNat ∧ c.toNat ≤ 122)

/-- The regex character class [a-z0-9]. -/
def isLowerOrDigit (c : Char) : Bool :=
  isLowerAZ c || decide (48 ≤ c.toNat ∧ c.toNat ≤ 57)

/-- ASCII lower-casing of one character, as done by Python str.lower on
the ASCII range (A..Z map to a..z, everything else in our inputs is kept). -/
def pyLowerChar (c : Char) : Char :=
  if isUpperAZ c then Char.ofNat (c.toNat + 32) else c

/-- ASCII upper-casing of one character, as done by Python str.upper on
the ASCII range (a..z map to A..Z, everything else is kept). -/
def pyUpperChar (c : Char) : Char :=
  if isLowerAZ c then Char.ofNat (c.toNat - 32) else c

/-! ### camel_to_under (filters.py lines 214-216)

    def camel_to_under(s):
        s1 = re.sub('(.)([A-Z][a-z]+)', r'\1_\2', s)
        return re.sub('([a-z0-9])([A-Z])', r'\1_\2', s1).lower()

The two substitutions are embedded directly: Python re.sub scans left to
right for leftmost non-overlapping matches and resumes after each match.
In the first pattern the dot matches any character except the newline and
[a-z]+ is greedy. -/

/-- Greedy [a-z]+ tail: the maximal lowercase-ASCII prefix and the rest. -/
def lowerRun : List Char → List Char × List Char
  | [] => ([], [])
  | c :: cs =>
    if isLowerAZ c then ((c :: (lowerRun cs).1), (lowerRun cs).2)
    else ([], c :: cs)

/-- One pass of re.sub for the pattern (.)([A-Z][a-z]+) with template
group1 underscore group2. Codepoints: 10 newline, 95 underscore. -/
def sub1 : List Char → List Char
  | [] => []
  | [c] => [c]
  | c1 :: c2 :: rest =>
    if c1 != Char.ofNat 10 && isUpperAZ c2 &&
       (match rest with | c3 :: _ => isLowerAZ c3 | [] => false) then
      c1 :: Char.ofNat 95 :: c2 :: (lowerRun rest).1 ++ sub1 (lowerRun rest).2
    else
      c1 :: sub1 (c2 :: rest)
termination_by l => l.length
decreasing_by
  · have hlen : ∀ l : List Char, (lowerRun l).2.length ≤ l.length := by
      intro l
      induction l with
      | nil => simp [lowerRun]
      | cons c cs ih =>
        by_cases h : isLowerAZ c = true
        · simp only [lowerRun, h, if_true]
          exact Nat.le_succ_of_le ih
        · simp only [Bool.not_eq_true] at h
          simp [lowerRun, h]
    simp only [List.length_cons]
    have := hlen rest
    omega
  · simp only [List.length_cons]
    omega

/-- One pass of re.sub for the pattern ([a-z0-9])([A-Z]) with template
group1 underscore group2. -/
def sub2 : List Char → List Char
  | [] => []
  | [c] => [c]
  | c1 :: c2 :: rest =>
    if isLowerOrDigit c1 && isUpperAZ c2 then
      c1 :: Char.ofNat 95 :: c2 :: sub2 rest
    else
      c1 :: sub2 (c2 :: rest)

/-- filters.py camel_to_under: the two substitutions followed by str.lower. -/
def camel_to_under (s : String) : String :=
  String.mk ((sub2 (sub1 s.data)).map pyLowerChar)

/-! ### Identifier mangling (types.py lines 131-136) -/

/-- Python single-character str.replace: every occurrence of a becomes b. -/
def pyReplaceChar (a b : Char) (l : List Char) : List Char :=
  l.map fun c => if c = a then b else c

/-- Python single-character deletion, str.replace with the empty string. -/
def pyRemoveChar (a : Char) (l : List Char) : List Char :=
  l.filter fun c => c ≠ a

/-- types.py RESERVED_WORDS. -/
def RESERVED_WORDS : List String :=
  ["abstract", "alignof", "as", "become", "box", "break", "const", "continue",
   "crate", "do", "else", "enum", "extern", "false", "final", "fn", "for",
   "if", "impl", "in", "let", "loop", "macro", "match", "mod", "move", "mut",
   "offsetof", "override", "priv", "pub", "pure", "ref", "return", "sizeof",
   "static", "self", "struct", "super", "true", "trait", "type", "typeof",
   "unsafe", "unsized", "use", "virtual", "where", "while", "yield"]

/-- types.py mangle_ident: camel_to_under, then the replacement chain
hyphen to dot, dot to underscore, dollar removed, then the reserved-word
trailing underscore. Codepoints: 45 hyphen, 46 dot, 95 underscore, 36 dollar. -/
def mangle_ident (n : String) : String :=
  let m := String.mk (pyRemoveChar (Char.ofNat 36)
    (pyReplaceChar (Char.ofNat 46) (Char.ofNat 95)
      (pyReplaceChar (Char.ofNat 45) (Char.ofNat 46) (camel_to_under n).data)))
  if m ∈ RESERVED_WORDS then m ++ "_" else m

/-! ### Type names (types.py lines 113-128)

Python str.split with an explicit single-character separator keeps empty
segments; capitalize is s take-one upper plus the remainder unchanged. -/

/-- Python s.split(sep) for a single-character separator. -/
def pySplitChar (sep : Char) : List Char → List (List Char)
  | [] => [[]]
  | c :: cs =>
    if c = sep then [] :: pySplitChar sep cs
    else
      match pySplitChar sep cs with
      | [] => [[c]]
      | h :: t => (c :: h) :: t

/-- types.py capitalize on a character list: upper-case the first
character, keep the rest (unlike Python str.capitalize). -/
def capitalizeL : List Char → List Char
  | [] => []
  | c :: cs => pyUpperChar c :: cs

/-- types.py capitalize (line 113). -/
def capitalize (s : String) : String := String.mk (capitalizeL s.data)

/-- One line of canonical_type_name: split on sep, capitalize each
segment, join with the empty string. -/
def canonStep (sep : Char) (l : List Char) : List Char :=
  ((pySplitChar sep l).map capitalizeL).flatten

/-- types.py canonical_type_name (lines 118-123): split and capitalize on
space, underscore and hyphen in that order, then capitalize the result.
Codepoints: 32 space, 95 underscore, 45 hyphen. -/
def canonical_type_name (s : String) : String :=
  String.mk (capitalizeL (canonStep (Char.ofNat 45)
    (canonStep (Char.ofNat 95) (canonStep (Char.ofNat 32) s.data))))

/-- types.py nested_type_name (lines 126-128). -/
def nested_type_name (sn pn : String) : String :=
  sn ++ canonical_type_name pn

/-- Modelled from the spec: the descriptor classes Base, Option, Box, Vec
and HashMap live in the collaborating rust_type module, which is not among
the embedded sources. Per the spec they are immutable value objects
compared structurally, with no normalisation on construction. The resolver
additionally stores two non-descriptor Python values in descriptor
positions, which the model represents explicitly: `pystr` is a plain
Python string (the use_format_field marker from the type table) and
`null` is Python None (the empty parameter of the Vec and HashMap marker
entries in the table). -/
inductive RustType where
  | pystr (s : String)
  | null
  | base (name : String)
  | option (inner : RustType)
  | box (inner : RustType)
  | vec (inner : RustType)
  | hashMap (key value : RustType)
deriving DecidableEq

/-- Is the outermost layer the nullable wrapper? -/
def RustType.isOption : RustType → Bool
  | .option _ => true
  | _ => false

/-- Is the descriptor a plain named base type? -/
def RustType.isBase : RustType → Bool
  | .base _ => true
  | _ => false

/-- Does the heap-indirection wrapper occur anywhere in the descriptor? -/
def RustType.containsBox : RustType → Bool
  | .pystr _ => false
  | .null => false
  | .base _ => false
  | .option i => i.containsBox
  | .box _ => true
  | .vec i => i.containsBox
  | .hashMap k v => k.containsBox || v.containsBox

/-! ### Fixed type tables (types.py lines 28-62) -/

def CHRONO_PATH : String := "client::chrono"
def CHRONO_DATETIME : String := CHRONO_PATH ++ "::DateTime<" ++ CHRONO_PATH ++ "::offset::Utc>"
def CHRONO_DATE : String := CHRONO_PATH ++ "::NaiveDate"
def USE_FORMAT : RustType := .pystr "use_format_field"
def CHRONO_UTC_NOW : String := "chrono::Utc::now()"

/-- types.py RUST_TYPE_MAP, in source order; dict lookup is embedded as
List.lookup on the association list (keys are distinct). -/
def RUST_TYPE_MAP : List (String × RustType) :=
  [("boolean", .base "bool"),
   ("integer", USE_FORMAT),
   ("number", USE_FORMAT),
   ("uint32", .base "u32"),
   ("double", .base "f64"),
   ("float", .base "f32"),
   ("int32", .base "i32"),
   ("any", .base "String"),
   ("int64", .base "i64"),
   ("uint64", .base "u64"),
   ("array", .vec .null),
   ("string", .base "String"),
   ("object", .hashMap .null .null),
   ("google-datetime", .base CHRONO_DATETIME),
   ("date-time", .base CHRONO_DATETIME),
   ("date", .base CHRONO_DATE),
   ("google-duration", .base (CHRONO_PATH ++ "::Duration")),
   ("byte", .vec (.base "u8")),
   ("google-fieldmask", .base "client::FieldMask")]

/-! ### Schema property dictionaries

A property dict is embedded by the keys the resolver reads: the reference
key, type, format, items, additionalProperties, repeated and the presence
of a properties key. `absent` stands for "no dict here" and is used for a
missing items or additionalProperties key; as a dict value it behaves as
a dict with no keys. -/

inductive TypeDict where
  | absent
  | mk (ref type format : Option String) (items additionalProperties : TypeDict)
       (repeated properties : Bool)
deriving DecidableEq

def TypeDict.ref : TypeDict → Option String
  | .absent => none
  | .mk r _ _ _ _ _ _ => r

def TypeDict.type : TypeDict → Option String
  | .absent => none
  | .mk _ t _ _ _ _ _ => t

def TypeDict.format : TypeDict → Option String
  | .absent => none
  | .mk _ _ f _ _ _ _ => f

def TypeDict.items : TypeDict → TypeDict
  | .absent => .absent
  | .mk _ _ _ i _ _ _ => i

def TypeDict.additionalProperties : TypeDict → TypeDict
  | .absent => .absent
  | .mk _ _ _ _ a _ _ => a

def TypeDict.repeated : TypeDict → Bool
  | .absent => false
  | .mk _ _ _ _ _ r _ => r

def TypeDict.properties : TypeDict → Bool
  | .absent => false
  | .mk _ _ _ _ _ _ p => p

/-- Does this stand for a dict that is present (a key that exists)? -/
def TypeDict.isDict : TypeDict → Bool
  | .absent => false
  | .mk _ _ _ _ _ _ _ => true

/-- types.py is_map_prop (lines 139-140): additionalProperties in p. -/
def is_map_prop (p : TypeDict) : Bool := p.additionalProperties.isDict

/-- types.py is_nested_type_property (lines 207-208). -/
def is_nested_type_property (t : TypeDict) : Bool :=
  (t.type == some "object" && t.properties) || (t.items.isDict && t.items.properties)

/-! ### Failure model

The resolver raises AssertionError in three places: the bare asserts in
_assure_unique_type_name and nested_type, and the KeyError handler of
to_rust_type, whose message is built as

    percent-format of (str(err), t[type-key], str(t))

so the assertion carries exactly the repr of the missing key, the raw type
value and the property dict, and nothing else. A KeyError that escapes a
handler (a dict with neither format nor type) is `keyError` with the repr
of the missing key. The AttributeError branch is unreachable for inputs
that are well-formed dicts, which is all this model represents. -/

inductive PyExc where
  | keyError (errRepr : String)
  | unmappedType (errRepr : String) (rawType : String) (t : TypeDict)
  | assertFail
deriving DecidableEq

deriving instance DecidableEq for Except

/-- Python repr of a simple string: the value between single-quote
characters (codepoint 39); this is what str(KeyError(k)) shows. -/
def pyReprStr (s : String) : String :=
  String.mk (Char.ofNat 39 :: s.data ++ [Char.ofNat 39])

/-- types.py _assure_unique_type_name (lines 143-147): on a registry
collision append the Nested suffix once; a second collision fails the
assert. -/
def _assure_unique_type_name (schemas : List String) (tn : String) : Except PyExc String :=
  if tn ∈ schemas then
    if (tn ++ "Nested") ∈ schemas then .error .assertFail
    else .ok (tn ++ "Nested")
  else .ok tn

/-! ### The resolver: types.py to_rust_type (lines 153-203)

The local helper nested_type (lines 161-170) is hoisted into a let
binding; its value is only consumed on the sequence and map marker paths,
exactly where the source calls it, and computing it elsewhere is
unobservable in this pure model. Exceptions are modelled by Except: the
except KeyError handler converts any KeyError raised in the try body -
including one escaping a recursive call - into the unmappedType assertion,
re-raising KeyError when the type key itself is missing. -/

/-- The lookup key of line 189, t.get(format-key, t[type-key]): the format
value when present, else the type value; none when both keys are missing
(which in the source raises KeyError on the type key). -/
def formatOrType (fmt ty : Option String) : Option String :=
  match fmt with
  | some f => some f
  | none => ty

/-- The except KeyError handler of lines 199-201: a KeyError raised
anywhere in the try body becomes the unmapped-type AssertionError built
from str(err), t[type-key] and t itself; evaluating t[type-key] inside the
handler re-raises KeyError when the type key is missing. Other outcomes
pass through. -/
def keyErrorHandler (r : Except PyExc RustType) (ty : Option String) (td : TypeDict) :
    Except PyExc RustType :=
  match r with
  | .ok rt => .ok rt
  | .error (.keyError k) =>
    match ty with
    | some rawType => .error (.unmappedType k rawType td)
    | none => .error (.keyError (pyReprStr "type"))
  | .error e => .error e

/-- The closing branch of nested_type (lines 167-169): the property must
itself be a nested structural type (the assert), and its synthesized name
is registered and returned as a base descriptor. -/
def nestedSynth (schemas : List String) (schema_name property_name : String)
    (td : TypeDict) : Except PyExc RustType :=
  if is_nested_type_property td then
    match _assure_unique_type_name schemas (nested_type_name schema_name property_name) with
    | .ok n => .ok (.base n)
    | .error e => .error e
  else .error .assertFail

def to_rust_type (schemas : List String) (schema_name property_name : String)
    (t : TypeDict) (allow_optionals : Bool := true) ( _is_recursive : Bool := false) :
    Except PyExc RustType :=
  match t with
  | .absent =>
    -- behaves as the empty dict: no reference key, no format, no type
    .error (.keyError (pyReprStr "type"))
  | .mk ref ty fmt items addProps rep props =>
    let td := TypeDict.mk ref ty fmt items addProps rep props
    -- nested_type(t): prefer items, then additionalProperties, else the
    -- property must itself be a nested structural type and a name is
    -- synthesized for it
    let nestedResult : Except PyExc RustType :=
      match items with
      | .mk ri ti fi ii ai rpi pi =>
        to_rust_type schemas schema_name property_name (.mk ri ti fi ii ai rpi pi) false true
      | .absent =>
        match addProps with
        | .mk ra ta fa ia aa rpa pa =>
          to_rust_type schemas schema_name property_name (.mk ra ta fa ia aa rpa pa) false true
        | .absent => nestedSynth schemas schema_name property_name td
    let wrap_type : RustType → RustType :=
      fun rt => if allow_optionals then .option rt else rt
    match ref with
    | some tn =>
      -- unconditional reference handling, with the first-level recursion fix
      let rt := RustType.base tn
      let rt := if ! _is_recursive && tn == schema_name then RustType.option (.box rt) else rt
      .ok (wrap_type rt)
    | none =>
      keyErrorHandler
        (match formatOrType fmt ty with
         | none => .error (.keyError (pyReprStr "type"))
         | some key =>
           match RUST_TYPE_MAP.lookup key with
           | none => .error (.keyError (pyReprStr key))
           | some rust_type =>
             if rust_type == RustType.vec .null then
               match nestedResult with
               | .ok nrt => .ok (wrap_type (.vec nrt))
               | .error e => .error e
             else if rust_type == RustType.hashMap .null .null then
               if is_map_prop td then
                 match nestedResult with
                 | .ok nrt => .ok (wrap_type (.hashMap (.base "String") nrt))
                 | .error e => .error e
               else
                 match nestedResult with
                 | .ok nrt => .ok (wrap_type nrt)
                 | .error e => .error e
             else if rep then .ok (.vec rust_type)
             else .ok (wrap_type rust_type))
        ty td

/-! ### Default and sample value generation (types.py lines 15-25, 64-83,
218-222) -/

/-- Modelled from the spec: the process-wide pseudo-random source is the
Python random module (external stdlib, seeded once with the constant 1337
at module load, types.py line 6). Its Mersenne-Twister stream is
abstracted as a deterministic function of an explicit Nat state: one draw
yields a Nat and the successor state. -/
def nextNat (g : Nat) : Nat × Nat :=
  (g / 65536 % 2147483648, (g * 1103515245 + 12345) % 4611686018427387904)

/-- The constant fed to seed() at module load (types.py line 6); seeding
makes the constant the initial generator state in this model. -/
def SEED_CONSTANT : Nat := 1337

/-- random.randint(a, b): one draw mapped into the closed interval. -/
def pyRandint (a b : Int) (g : Nat) : Int × Nat :=
  let p := nextNat g
  (a + Int.ofNat (p.1 % (b - a + 1).toNat), p.2)

/-- random.random() rendered as decimal text, one draw. -/
def pyRandom (g : Nat) : String × Nat :=
  let p := nextNat g
  ("0." ++ toString (p.1 % 1000000), p.2)

/-- random.choice on a word list, one draw. -/
def pyChoice (l : List String) (g : Nat) : String × Nat :=
  let p := nextNat g
  (l.getD (p.1 % l.length) "", p.2)

/-- Python str.strip with a single strip character: remove all leading and
trailing occurrences. -/
def pyStripBoth (a : Char) (l : List Char) : List Char :=
  ((l.dropWhile (fun c => c = a)).reverse.dropWhile (fun c => c = a)).reverse

/-- The fixed sample text of types.py lines 15-18 before splitting. -/
def WORDS_TEXT : String :=
  "Lorem ipsum dolor sit amet, consetetur sadipscing elitr, sed diam nonumy eirmod tempor invidunt ut labore et dolore magna aliquyam erat, sed diam voluptua. At vero eos et accusam et justo duo dolores et ea rebum. Stet clita kasd gubergren, no sea takimata sanctus est Lorem ipsum dolor sit amet. Lorem ipsum dolor sit amet, consetetur sadipscing elitr, sed diam nonumy eirmod tempor invidunt ut labore et dolore magna aliquyam erat, sed diam voluptua. At vero eos et accusam et justo duo dolores et ea rebum. Stet clita kasd gubergren, no sea takimata sanctus est Lorem ipsum dolor sit amet."

/-- types.py WORDS: the text split on spaces with commas stripped from
each word. Codepoints: 32 space, 44 comma. -/
def WORDS : List String :=
  (pySplitChar (Char.ofNat 32) WORDS_TEXT.data).map
    (fun w => String.mk (pyStripBoth (Char.ofNat 44) w))

/-- types.py chrono_date (lines 21-25) as called with no arguments: three
draws for year, month and day. -/
def chrono_date (g : Nat) : String × Nat :=
  let y := pyRandint 1 9999 g
  let m := pyRandint 1 12 y.2
  let d := pyRandint 1 31 m.2
  ("chrono::NaiveDate::from_ymd(" ++ toString y.1 ++ ", " ++ toString m.1 ++ ", "
    ++ toString d.1 ++ ")", d.2)

/-- types.py RUST_TYPE_RND_MAP (lines 64-83), in source order: one
generator per canonical type name, each drawing from the shared
pseudo-random state and rendering text exactly as the source formats it. -/
def RUST_TYPE_RND_MAP : List (String × (Nat → String × Nat)) :=
  [("bool", fun g =>
      let p := pyRandint 0 1 g
      (if p.1 == 1 then "true" else "false", p.2)),
   ("u32", fun g => let p := pyRandint 0 100 g; (toString p.1, p.2)),
   ("u64", fun g => let p := pyRandint 0 100 g; (toString p.1, p.2)),
   ("f64", pyRandom),
   ("f32", pyRandom),
   ("i32", fun g => let p := pyRandint (-101) (-1) g; (toString p.1, p.2)),
   ("i64", fun g => let p := pyRandint (-101) (-1) g; (toString p.1, p.2)),
   ("String", fun g => let p := pyChoice WORDS g; ("\"" ++ p.1 ++ "\"", p.2)),
   ("&str", fun g => let p := pyChoice WORDS g; ("\"" ++ p.1 ++ "\"", p.2)),
   ("&Vec<String>", fun g =>
      let p := pyChoice WORDS g
      ("&vec![\"" ++ p.1 ++ "\".into()]", p.2)),
   ("Vec<u8>", fun g => ("vec![0, 1, 2, 3]", g)),
   ("&Vec<u8>", fun g => ("&vec![0, 1, 2, 3]", g)),
   (CHRONO_PATH ++ "::Duration", fun g =>
      let p := pyRandint 0 9999999 g
      ("chrono::Duration::seconds(" ++ toString p.1 ++ ")", p.2)),
   (CHRONO_DATE, chrono_date),
   (CHRONO_DATETIME, fun g => (CHRONO_UTC_NOW, g)),
   ("FieldMask", fun g =>
      let p := pyChoice WORDS g
      ("FieldMask(vec![" ++ p.1 ++ "])", p.2))]

/-- types.py rnd_arg_val_for_type (lines 218-222): look the stringified
name up in the sample table; an unknown name falls back to the generic
derive-a-default placeholder instead of raising. -/
def rnd_arg_val_for_type (tn : String) (g : Nat) : String × Nat :=
  match RUST_TYPE_RND_MAP.lookup tn with
  | some gen => gen g
  | none => ("&Default::default()", g)

/-- Modelled from the spec: a generation run drawing one sample per
requested type name, threading the shared seeded source through the
sequence of requests and collecting the rendered text. -/
def sample_run : List String → Nat → List String × Nat
  | [], g => ([], g)
  | tn :: rest, g =>
    let p := rnd_arg_val_for_type tn g
    let q := sample_run rest p.2
    (p.1 :: q.1, q.2)

/-! ### Character-level lemmas -/

theorem char_toNat_ofNat (n : Nat) (h : n < 55296) : (Char.ofNat n).toNat = n := by
  have hv : n.isValidChar := Or.inl h
  simp [Char.ofNat, hv, Char.ofNatAux, Char.toNat, UInt32.toNat, BitVec.ofNatLt]

theorem isUpperAZ_pyLowerChar (c : Char) : isUpperAZ (pyLowerChar c) = false := by
  by_cases h : isUpperAZ c = true
  · have hb : 65 ≤ c.toNat ∧ c.toNat ≤ 90 := by
      simp only [isUpperAZ, decide_eq_true_eq] at h
      exact h
    unfold pyLowerChar
    rw [if_pos h]
    simp only [isUpperAZ, decide_eq_false_iff_not]
    rw [char_toNat_ofNat (c.toNat + 32) (by omega)]
    omega
  · simp only [Bool.not_eq_true] at h
    unfold pyLowerChar
    rw [if_neg (by simp [h])]
    exact h

theorem pyLowerChar_eq_self (c : Char) (h : isUpperAZ c = false) : pyLowerChar c = c := by
  simp [pyLowerChar, h]

/-! ### Idempotence infrastructure for mangle_ident -/

theorem sub1_id_of_no_upper (l : List Char) (h : ∀ c ∈ l, isUpperAZ c = false) :
    sub1 l = l := by
  induction l using sub1.induct with
  | case1 => simp [sub1]
  | case2 c => simp [sub1]
  | case3 c1 c2 rest hg ih =>
    have hc2 : isUpperAZ c2 = false := h c2 (by simp)
    simp [hc2] at hg
  | case4 c1 c2 rest hg ih =>
    rw [sub1.eq_def]
    simp only []
    rw [if_neg (by simpa using hg)]
    rw [ih (fun c hc => h c (List.mem_cons_of_mem _ hc))]

theorem sub2_id_of_no_upper (l : List Char) (h : ∀ c ∈ l, isUpperAZ c = false) :
    sub2 l = l := by
  induction l using sub2.induct with
  | case1 => simp [sub2]
  | case2 c => simp [sub2]
  | case3 c1 c2 rest hg ih =>
    have hc2 : isUpperAZ c2 = false := h c2 (by simp)
    simp [hc2] at hg
  | case4 c1 c2 rest hg ih =>
    rw [sub2.eq_def]
    simp only []
    rw [if_neg (by simpa using hg)]
    rw [ih (fun c hc => h c (List.mem_cons_of_mem _ hc))]

theorem list_map_id {α : Type} (f : α → α) (l : List α) (h : ∀ c ∈ l, f c = c) :
    l.map f = l := by
  induction l with
  | nil => rfl
  | cons c cs ih =>
    simp only [List.map_cons, h c (by simp)]
    rw [ih (fun d hd => h d (List.mem_cons_of_mem _ hd))]

theorem camel_no_upper (s : String) : ∀ c ∈ (camel_to_under s).data, isUpperAZ c = false := by
  intro c hc
  rcases List.mem_map.mp hc with ⟨d, _, rfl⟩
  exact isUpperAZ_pyLowerChar d

theorem camel_id (s : String) (h : ∀ c ∈ s.data, isUpperAZ c = false) :
    camel_to_under s = s := by
  unfold camel_to_under
  rw [sub1_id_of_no_upper _ h, sub2_id_of_no_upper _ h,
      list_map_id _ _ (fun c hc => pyLowerChar_eq_self c (h c hc))]

theorem mem_pyReplaceChar {a b c : Char} {l : List Char} (hc : c ∈ pyReplaceChar a b l) :
    c = b ∨ (c ∈ l ∧ c ≠ a) := by
  rcases List.mem_map.mp hc with ⟨d, hd, rfl⟩
  by_cases hda : d = a
  · simp [hda]
  · rw [if_neg hda]
    exact Or.inr ⟨hd, hda⟩

theorem mem_pyRemoveChar {a c : Char} {l : List Char} (hc : c ∈ pyRemoveChar a l) :
    c ∈ l ∧ c ≠ a := by
  have h := List.mem_filter.mp hc
  exact ⟨h.1, by simpa using h.2⟩

theorem reserved_append_not_reserved :
    ∀ r ∈ RESERVED_WORDS, (r ++ "_") ∉ RESERVED_WORDS := by decide

/-- A string over the mangled alphabet (no ASCII uppercase, hyphen, dot or
dollar) that is not a reserved word is a fixed point of mangle_ident. -/
theorem mangle_ident_id_of_clean (s : String)
    (hp : ∀ c ∈ s.data, isUpperAZ c = false ∧ c ≠ Char.ofNat 45 ∧
          c ≠ Char.ofNat 46 ∧ c ≠ Char.ofNat 36)
    (hR : s ∉ RESERVED_WORDS) : mangle_ident s = s := by
  have hcam : camel_to_under s = s := camel_id s (fun c hc => (hp c hc).1)
  have e1 : pyReplaceChar (Char.ofNat 45) (Char.ofNat 46) s.data = s.data :=
    list_map_id _ _ (fun c hc => if_neg (hp c hc).2.1)
  have e2 : pyReplaceChar (Char.ofNat 46) (Char.ofNat 95) s.data = s.data :=
    list_map_id _ _ (fun c hc => if_neg (hp c hc).2.2.1)
  have e3 : pyRemoveChar (Char.ofNat 36) s.data = s.data := by
    apply List.filter_eq_self.mpr
    intro c hc
    exact decide_eq_true (hp c hc).2.2.2
  have hmk : String.mk s.data = s := rfl
  show (if String.mk (pyRemoveChar (Char.ofNat 36)
      (pyReplaceChar (Char.ofNat 46) (Char.ofNat 95)
        (pyReplaceChar (Char.ofNat 45) (Char.ofNat 46) (camel_to_under s).data)))
      ∈ RESERVED_WORDS then _ else _) = s
  rw [hcam, e1, e2, e3, hmk, if_neg hR]

/-- C7: mangle_ident is a total function on strings and is idempotent on
all inputs: mangling a second time returns the first result unchanged. -/
theorem c7_mangle_ident_idempotent (x : String) :
    mangle_ident (mangle_ident x) = mangle_ident x := by
  have key : ∃ d2 : List Char,
      mangle_ident x =
        (if String.mk d2 ∈ RESERVED_WORDS then String.mk d2 ++ "_" else String.mk d2)
      ∧ ∀ c ∈ d2, isUpperAZ c = false ∧ c ≠ Char.ofNat 45 ∧
          c ≠ Char.ofNat 46 ∧ c ≠ Char.ofNat 36 := by
    refine ⟨pyRemoveChar (Char.ofNat 36)
      (pyReplaceChar (Char.ofNat 46) (Char.ofNat 95)
        (pyReplaceChar (Char.ofNat 45) (Char.ofNat 46) (camel_to_under x).data)), rfl, ?_⟩
    intro c hc
    have h1 := mem_pyRemoveChar hc
    rcases mem_pyReplaceChar h1.1 with rfl | ⟨hin0, hne46⟩
    · exact ⟨by decide, by decide, by decide, h1.2⟩
    · rcases mem_pyReplaceChar hin0 with rfl | ⟨hincam, hne45⟩
      · exact absurd rfl hne46
      · exact ⟨camel_no_upper x c hincam, hne45, hne46, h1.2⟩
  rcases key with ⟨d2, heq, hp⟩
  rw [heq]
  by_cases hr : String.mk d2 ∈ RESERVED_WORDS
  · rw [if_pos hr]
    apply mangle_ident_id_of_clean
    · intro c hc
      have hdata : (String.mk d2 ++ "_").data = d2 ++ [Char.ofNat 95] := rfl
      rw [hdata] at hc
      rcases List.mem_append.mp hc with hin | hin
      · exact hp c hin
      · rcases List.mem_singleton.mp hin with rfl
        exact ⟨by decide, by decide, by decide, by decide⟩
    · exact reserved_append_not_reserved _ hr
  · rw [if_neg hr]
    exact mangle_ident_id_of_clean _ hp hr

/-! ### Resolver lemmas -/

theorem lookup_mem_pairs {α β : Type} [BEq α] (l : List (α × β)) (k : α) (v : β)
    (h : l.lookup k = some v) : ∃ p ∈ l, p.2 = v := by
  induction l with
  | nil => simp [List.lookup] at h
  | cons p rest ih =>
    rw [List.lookup] at h
    cases hk : (k == p.1) with
    | true =>
      rw [hk] at h
      simp only [] at h
      exact ⟨p, by simp, by simpa using h⟩
    | false =>
      rw [hk] at h
      simp only [] at h
      rcases ih h with ⟨q, hq, hv⟩
      exact ⟨q, List.mem_cons_of_mem _ hq, hv⟩

theorem lookup_eq_none_of_not_mem {α β : Type} [BEq α] [LawfulBEq α]
    (l : List (α × β)) (k : α) (h : k ∉ l.map Prod.fst) : l.lookup k = none := by
  induction l with
  | nil => rfl
  | cons p rest ih =>
    simp only [List.map_cons, List.mem_cons, not_or] at h
    rw [List.lookup, show (k == p.1) = false from beq_eq_false_iff_ne.mpr h.1]
    exact ih h.2

theorem RUST_TYPE_MAP_not_option (k : String) (v : RustType)
    (h : RUST_TYPE_MAP.lookup k = some v) : v.isOption = false := by
  rcases lookup_mem_pairs _ _ _ h with ⟨p, hp, rfl⟩
  revert hp
  have hall : ∀ p ∈ RUST_TYPE_MAP, (p.2 : RustType).isOption = false := by decide
  exact hall p

theorem keyErrorHandler_ok {r : Except PyExc RustType} {ty : Option String}
    {td : TypeDict} {rt : RustType} (h : keyErrorHandler r ty td = .ok rt) :
    r = .ok rt := by
  rcases r with e | x
  · rcases e with k | ⟨k2, raw, td2⟩ | _ <;> rcases ty with _ | ty0 <;>
      simp [keyErrorHandler] at h
  · simpa [keyErrorHandler] using h

theorem nestedSynth_not_option {schemas : List String} {sn pn : String}
    {td : TypeDict} {v : RustType} (h : nestedSynth schemas sn pn td = .ok v) :
    v.isOption = false := by
  unfold nestedSynth at h
  split at h
  · split at h <;> simp_all
    subst h
    rfl
  · simp at h

/-! ### Claims about the resolver -/

/-- C1 (amended): for a resolution call at the outermost level
(allow_optionals true, not recursive) on a reference property whose
referenced name equals the enclosing schema name, to_rust_type builds
Option(Box(Base(name))) and then applies the allow_optionals wrap on top,
returning Option(Option(Box(Base(name)))). -/
theorem c1_amended_self_reference (schemas : List String) (sn pn : String)
    (t : TypeDict) (tn : String) (href : t.ref = some tn) (hsn : tn = sn) :
    to_rust_type schemas sn pn t true false
      = .ok (.option (.option (.box (.base tn)))) := by
  cases t with
  | absent => simp [TypeDict.ref] at href
  | mk ref ty fmt items addProps rep props =>
    simp only [TypeDict.ref] at href
    subst href
    subst hsn
    rw [to_rust_type.eq_def]
    simp

/-- C1 counterexample: the Node next scenario yields the doubled Option,
not Option(Box(Base("Node"))) as claimed. -/
theorem c1_counterexample :
    to_rust_type ["Node"] "Node" "next"
        (.mk (some "Node") none none .absent .absent false false) true false
      = .ok (.option (.option (.box (.base "Node"))))
    ∧ to_rust_type ["Node"] "Node" "next"
        (.mk (some "Node") none none .absent .absent false false) true false
      ≠ .ok (.option (.box (.base "Node"))) :=
  ⟨by decide, by decide⟩

/-- C1 witness: the amended statement applied to the Node next scenario. -/
theorem c1_witness :
    to_rust_type ["Node"] "Node" "next"
        (.mk (some "Node") none none .absent .absent false false) true false
      = .ok (.option (.option (.box (.base "Node")))) :=
  c1_amended_self_reference ["Node"] "Node" "next"
    (.mk (some "Node") none none .absent .absent false false) "Node" rfl rfl

/-- C2 (amended): a property whose resolved format-or-type key is missing
from RUST_TYPE_MAP makes to_rust_type fail with the unmapped-type
assertion and never return a descriptor; the assertion carries the repr of
the missing key, the raw type value and the property dict itself, but not
the schema name or the property name. -/
theorem c2_amended_unmapped_error (schemas : List String) (sn pn : String)
    (t : TypeDict) (ao rec : Bool) (ty0 k : String)
    (href : t.ref = none) (hty : t.type = some ty0)
    (hkey : formatOrType t.format t.type = some k)
    (hlk : RUST_TYPE_MAP.lookup k = none) :
    to_rust_type schemas sn pn t ao rec
      = .error (.unmappedType (pyReprStr k) ty0 t) := by
  cases t with
  | absent => simp [TypeDict.type] at hty
  | mk ref ty fmt items addProps rep props =>
    simp only [TypeDict.ref, TypeDict.type, TypeDict.format] at href hty hkey
    subst href
    subst hty
    rw [to_rust_type.eq_def schemas sn pn
      (TypeDict.mk none (some ty0) fmt items addProps rep props) ao rec]
    simp only [hkey, hlk, keyErrorHandler]

/-- C2 counterexample: at a concrete unmapped property the error value is
identical across two different schema and property names, so the raised
error cannot report either name, contrary to the claim. -/
theorem c2_counterexample :
    (to_rust_type [] "SchemaA" "propertyA"
        (.mk none (some "frobnicate") none .absent .absent false false) true false
      = to_rust_type [] "SchemaB" "propertyB"
        (.mk none (some "frobnicate") none .absent .absent false false) true false)
    ∧ to_rust_type [] "SchemaA" "propertyA"
        (.mk none (some "frobnicate") none .absent .absent false false) true false
      = .error (.unmappedType (pyReprStr "frobnicate") "frobnicate"
          (.mk none (some "frobnicate") none .absent .absent false false)) :=
  ⟨by decide, by decide⟩

/-- C2 witness: the amended statement applied to a concrete unmapped key. -/
theorem c2_witness :
    to_rust_type [] "S" "p"
        (.mk none (some "mystery") none .absent .absent false false) true false
      = .error (.unmappedType (pyReprStr "mystery") "mystery"
          (.mk none (some "mystery") none .absent .absent false false)) :=
  c2_amended_unmapped_error [] "S" "p"
    (.mk none (some "mystery") none .absent .absent false false) true false
    "mystery" "mystery" rfl rfl rfl (by decide)

/-- C3 (amended): the object-with-integer-additionalProperties scenario
resolves to an optional map whose key is Base String but whose value slot
holds the use_format_field marker string (integer with no format), not a
base integer descriptor. -/
theorem c3_amended_map_value_is_marker :
    to_rust_type [] "Schema" "prop"
        (.mk none (some "object") none .absent
          (.mk none (some "integer") none .absent .absent false false) false false) true false
      = .ok (.option (.hashMap (.base "String") (.pystr "use_format_field"))) := by
  decide

/-- C3 counterexample: the resolved map value slot is the marker string,
which is not a Base descriptor of any integer type as the claim states. -/
theorem c3_counterexample :
    to_rust_type [] "Schema" "prop"
        (.mk none (some "object") none .absent
          (.mk none (some "integer") none .absent .absent false false) false false) true false
      = .ok (.option (.hashMap (.base "String") (.pystr "use_format_field")))
    ∧ (RustType.pystr "use_format_field").isBase = false :=
  ⟨by decide, by decide⟩

/-- C4: every nested or recursive resolver call (allow_optionals false,
recursive flag true) that returns a descriptor returns one whose outermost
layer is not an Option, so no doubled Option can arise from nesting. -/
theorem c4_nested_calls_never_option (schemas : List String) (sn pn : String)
    (t : TypeDict) (rt : RustType)
    (h : to_rust_type schemas sn pn t false true = .ok rt) :
    rt.isOption = false := by
  induction t generalizing rt with
  | absent => simp [to_rust_type] at h
  | mk ref ty fmt items addProps rep props ihI ihA =>
    rw [to_rust_type.eq_def schemas sn pn
      (TypeDict.mk ref ty fmt items addProps rep props) false true] at h
    rcases ref with _ | tn
    · simp only [] at h
      have h2 := keyErrorHandler_ok h
      rcases items with _ | ⟨ri, ti, fi, ii, ai, rpi, pi⟩ <;>
        rcases addProps with _ | ⟨ra, ta, fa, ia, aa, rpa, pa⟩ <;>
        (repeat' split at h2) <;>
        (try simp_all) <;>
        (try subst_vars) <;>
        first
          | rfl
          | exact ihI _ (by assumption)
          | exact ihA _ (by assumption)
          | exact RUST_TYPE_MAP_not_option _ _ (by assumption)
          | exact nestedSynth_not_option (by assumption)
    · simp only [] at h
      simp at h
      subst_vars
      rfl

/-- C4 witness: a concrete nested call returning a plain base descriptor. -/
theorem c4_witness :
    RustType.isOption (.base "String") = false :=
  c4_nested_calls_never_option [] "S" "p"
    (.mk none (some "string") none .absent .absent false false) (.base "String")
    (by decide)

/-- C5 (amended): an integer or number property with no format key, no
reference and no repeated flag resolves to the plain use_format_field
marker string, wrapped in Option exactly when allow_optionals is true;
with the repeated flag the marker is instead embedded in a Sequence. -/
theorem c5_use_format_marker (schemas : List String) (sn pn : String)
    (t : TypeDict) (ao rec : Bool)
    (href : t.ref = none)
    (hty : t.type = some "integer" ∨ t.type = some "number")
    (hfmt : t.format = none) (hrep : t.repeated = false) :
    to_rust_type schemas sn pn t ao rec
      = .ok (if ao then .option USE_FORMAT else USE_FORMAT) := by
  cases t with
  | absent => rcases hty with hty | hty <;> simp [TypeDict.type] at hty
  | mk ref ty fmt items addProps rep props =>
    simp only [TypeDict.ref, TypeDict.type, TypeDict.format, TypeDict.repeated]
      at href hty hfmt hrep
    subst href
    subst hfmt
    subst hrep
    rcases hty with hty | hty <;> subst hty <;>
      rw [to_rust_type.eq_def schemas sn pn
        (TypeDict.mk none _ none items addProps false props) ao rec] <;>
      simp [formatOrType, RUST_TYPE_MAP, List.lookup, keyErrorHandler, USE_FORMAT]

/-- C5 counterexample: with the repeated flag set the result is the marker
inside a Sequence, which is neither the bare marker string nor its
optional wrap, contrary to the claim read over all such dicts. -/
theorem c5_counterexample :
    to_rust_type [] "S" "p"
        (.mk none (some "integer") none .absent .absent true false) true false
      = .ok (.vec (.pystr "use_format_field"))
    ∧ (Except.ok (RustType.vec (.pystr "use_format_field")) : Except PyExc RustType)
        ≠ .ok (.pystr "use_format_field")
    ∧ (Except.ok (RustType.vec (.pystr "use_format_field")) : Except PyExc RustType)
        ≠ .ok (.option (.pystr "use_format_field")) :=
  ⟨by decide, by decide, by decide⟩

/-- C5 witness: a number property with optionals allowed yields the
optional-wrapped marker string. -/
theorem c5_witness :
    to_rust_type [] "S" "p"
        (.mk none (some "number") none .absent .absent false false) true false
      = .ok (.option USE_FORMAT) := by
  simpa using c5_use_format_marker [] "S" "p"
    (.mk none (some "number") none .absent .absent false false) true false
    rfl (Or.inr rfl) rfl rfl

/-- C6: a non-recursive reference to a schema other than the enclosing one
resolves, for any allow_optionals, to a descriptor with no
heap-indirection wrapper anywhere inside. -/
theorem c6_no_box_for_foreign_reference (schemas : List String) (sn pn : String)
    (t : TypeDict) (tn : String) (ao : Bool) (rt : RustType)
    (href : t.ref = some tn) (hne : tn ≠ sn)
    (h : to_rust_type schemas sn pn t ao false = .ok rt) :
    rt.containsBox = false := by
  cases t with
  | absent => simp [TypeDict.ref] at href
  | mk ref ty fmt items addProps rep props =>
    simp only [TypeDict.ref] at href
    subst href
    rw [to_rust_type.eq_def schemas sn pn
      (TypeDict.mk (some tn) ty fmt items addProps rep props) ao false] at h
    have hbeq : (tn == sn) = false := beq_eq_false_iff_ne.mpr hne
    simp only [hbeq, Bool.not_false, Bool.true_and, Bool.and_false, if_false] at h
    rcases ao with _ | _ <;> simp_all <;> subst_vars <;> rfl

/-- C6 witness: a concrete foreign reference resolved with optionals
allowed contains no Box. -/
theorem c6_witness :
    RustType.containsBox (.option (.base "Other")) = false :=
  c6_no_box_for_foreign_reference [] "Schema" "p"
    (.mk (some "Other") none none .absent .absent false false) "Other" true
    (.option (.base "Other")) rfl (by decide) (by decide)

/-- C8: when the synthesized nested-type name collides with a registry key
the fixed suffix Nested is appended exactly once; if the suffixed name also
collides the resolution fails with the fatal assertion instead of retrying
with further suffixes. -/
theorem c8_nested_name_collision (schemas : List String) (sn pn : String)
    (h : nested_type_name sn pn ∈ schemas) :
    ((nested_type_name sn pn ++ "Nested") ∉ schemas →
      _assure_unique_type_name schemas (nested_type_name sn pn)
        = .ok (nested_type_name sn pn ++ "Nested"))
    ∧ ((nested_type_name sn pn ++ "Nested") ∈ schemas →
      _assure_unique_type_name schemas (nested_type_name sn pn)
        = .error .assertFail) := by
  constructor
  · intro h2
    unfold _assure_unique_type_name
    rw [if_pos h, if_neg h2]
  · intro h2
    unfold _assure_unique_type_name
    rw [if_pos h, if_pos h2]

/-- C8 witness: the Foo bar scenario, once with only FooBar registered and
once with FooBarNested registered as well. -/
theorem c8_witness :
    (_assure_unique_type_name ["FooBar"] (nested_type_name "Foo" "bar")
      = .ok (nested_type_name "Foo" "bar" ++ "Nested"))
    ∧ (_assure_unique_type_name ["FooBar", "FooBarNested"] (nested_type_name "Foo" "bar")
      = .error .assertFail) :=
  ⟨(c8_nested_name_collision ["FooBar"] "Foo" "bar" (by decide)).1 (by decide),
   (c8_nested_name_collision ["FooBar", "FooBarNested"] "Foo" "bar" (by decide)).2 (by decide)⟩

/-- C9: a type name with no entry in the sample table makes
rnd_arg_val_for_type return the generic derive-a-default placeholder,
leaving the random state untouched, instead of raising. -/
theorem c9_unknown_type_fallback (tn : String) (g : Nat)
    (h : tn ∉ RUST_TYPE_RND_MAP.map Prod.fst) :
    rnd_arg_val_for_type tn g = ("&Default::default()", g) := by
  unfold rnd_arg_val_for_type
  rw [lookup_eq_none_of_not_mem _ _ h]

/-- C9 witness: a concrete unknown type name at the seeded state. -/
theorem c9_witness :
    rnd_arg_val_for_type "SomeUnknownType" SEED_CONSTANT
      = ("&Default::default()", SEED_CONSTANT) :=
  c9_unknown_type_fallback "SomeUnknownType" SEED_CONSTANT (by decide)

/-- C10: sample generation is a deterministic function of the seed and the
request sequence: two runs from the constant-seeded state over equal
sequences of type names produce identical output text. -/
theorem c10_sample_determinism (reqs1 reqs2 : List String) (h : reqs1 = reqs2) :
    (sample_run reqs1 SEED_CONSTANT).1 = (sample_run reqs2 SEED_CONSTANT).1 := by
  rw [h]

/-- C10 witness: the determinism statement applied to a concrete request
sequence. -/
theorem c10_witness :
    (sample_run ["bool", "String", "i32"] SEED_CONSTANT).1
      = (sample_run ["bool", "String", "i32"] SEED_CONSTANT).1 :=
  c10_sample_determinism ["bool", "String", "i32"] ["bool", "String", "i32"] rfl
